import Mathlib

/-!
Shallow embedding of the py2n client library (src/py2n) in Lean 4.

The embedding translates the pure, observable part of the Python code:
HTTP calls are represented by the already-received response values, and
the asynchronous methods become pure functions from those responses (and
the current session state) to either a result or the Python exception
they would raise.  In-place mutation of the device snapshot becomes
explicit state passing.  Machine-level concerns (timeouts, TLS, digest
handshakes) do not influence any of the verified properties and are
abstracted to the configuration flags the code branches on.
-/

namespace Py2N

/-- Vendor error codes recognised by the client, from exceptions.py
(class ApiError, an Enum over the listed numeric codes). -/
inductive ApiError where
  | not_supported
  | invalid_path
  | invalid_method
  | disabled
  | invalid_connection_type
  | invalid_authentication_method
  | authorization_required
  | insufficient_privileges
  | missing_parameter
  | invalid_parameter_value
  | parameter_data_too_big
  | processing_error
  | no_data_available
  | parameter_collision
  | rejected
  | file_version_unsupported
deriving DecidableEq

/-- Exceptions a py2n call can raise.  The Py2NError hierarchy of
exceptions.py is flattened into one inductive: NotInitialized,
DeviceConnectionError, DeviceUnsupportedError (with its message) and
DeviceApiError (with its ApiError payload), plus the builtin Python
exceptions the code can raise (TypeError from subscripting a dataclass,
AttributeError from reading a missing attribute, KeyError, NameError,
ValueError and RuntimeError with their messages). -/
inductive PyError where
  | notInitialized
  | typeError
  | attributeError
  | nameError
  | keyError
  | valueError (msg : String)
  | runtimeError (msg : String)
  | py2nError (msg : String)
  | deviceConnectionError
  | deviceUnsupported (msg : String)
  | deviceApi (error : ApiError)
deriving DecidableEq

/-- const.py: CONTENT_TYPE. -/
def CONTENT_TYPE : String := "application/json"

/-- model.py: Py2NConnectionData.  The aiohttp.BasicAuth object is
represented by the credential pair it wraps, and the digest middleware
by a flag recording whether one was installed. -/
structure Py2NConnectionData where
  host : String
  username : Option String := none
  password : Option String := none
  auth : Option (String × String) := none
  digest_auth_middleware : Bool := false
  auth_method : String := "basic"
  protocol : Option String := some "http"
  ssl_verify : Bool := false
  unprivileged : Bool := false
deriving DecidableEq

/-- model.py: Py2NConnectionData.__post_init__.  Returns the constructed
value, or the ValueError the constructor raises.  The parameter
aiohttp_has_digest models hasattr(aiohttp, "DigestAuthMiddleware"). -/
def post_init (aiohttp_has_digest : Bool) (c : Py2NConnectionData) :
    Except PyError Py2NConnectionData :=
  match c.username with
  | none => Except.ok c
  | some u =>
    match c.password with
    | none => Except.error (PyError.valueError "Supply both username and password")
    | some p =>
      if c.auth_method = "basic" then
        Except.ok { c with auth := some (u, p), digest_auth_middleware := false }
      else if c.auth_method = "digest" then
        if aiohttp_has_digest then
          Except.ok { c with auth := none, digest_auth_middleware := true }
        else
          Except.error (PyError.valueError "Digest auth requires aiohttp with DigestAuthMiddleware")
      else
        Except.error (PyError.valueError "Unsupported auth_method")

/-- model.py: Py2NDeviceSwitch. -/
structure Py2NDeviceSwitch where
  id : Nat
  enabled : Bool
  active : Bool
  locked : Bool
  mode : Option String
deriving DecidableEq

/-- model.py: Py2NDevicePort. -/
structure Py2NDevicePort where
  id : String
  type : String
  state : Bool
deriving DecidableEq

/-- model.py: Py2NDeviceData.  uptime is an absolute timestamp in whole
seconds (datetime truncated to seconds in the code); it is None for
unprivileged sessions. -/
structure Py2NDeviceData where
  name : String
  model : String
  serial : String
  host : String
  mac : String
  firmware : String
  hardware : String
  uptime : Option Int
  switches : List Py2NDeviceSwitch
  ports : List Py2NDevicePort
  log_caps : List String
deriving DecidableEq

/-- The JSON envelope of a device response, utils.py api_request.
success? is none when the top-level key "success" is missing;
error_code is none when "error"/"code" is missing; result? is none when
the "result" key is missing. -/
structure Envelope (α : Type) where
  success? : Option Bool
  error_code : Option Int
  result? : Option α
deriving DecidableEq

/-- An HTTP response as api_request observes it: the declared content
type and the parsed JSON body. -/
structure HttpResponse (α : Type) where
  content_type : String
  body : Envelope α
deriving DecidableEq

/-- exceptions.py: the Enum lookup ApiError(code); none models the
ValueError raised for an unrecognised numeric code. -/
def apiErrorFromCode (code : Int) : Option ApiError :=
  match code with
  | 1 => some ApiError.not_supported
  | 2 => some ApiError.invalid_path
  | 3 => some ApiError.invalid_method
  | 4 => some ApiError.disabled
  | 7 => some ApiError.invalid_connection_type
  | 8 => some ApiError.invalid_authentication_method
  | 9 => some ApiError.authorization_required
  | 10 => some ApiError.insufficient_privileges
  | 11 => some ApiError.missing_parameter
  | 12 => some ApiError.invalid_parameter_value
  | 13 => some ApiError.parameter_data_too_big
  | 14 => some ApiError.processing_error
  | 15 => some ApiError.no_data_available
  | 17 => some ApiError.parameter_collision
  | 18 => some ApiError.rejected
  | 19 => some ApiError.file_version_unsupported
  | _ => none

/-- utils.py api_request, line 368: credentials were supplied only when
both username and password are set. -/
def has_credentials (options : Py2NConnectionData) : Bool :=
  options.username.isSome && options.password.isSome

/-- utils.py api_request, lines 367-376: classify a vendor error code.
ApiError(code) either yields a recognised kind, reclassified from
insufficient privileges to authorization required when no credentials
were supplied, or raises ValueError, turned into
DeviceUnsupportedError("invalid error code"). -/
def classify_error (code : Int) (has_creds : Bool) : PyError :=
  match apiErrorFromCode code with
  | some e =>
      let e2 := if e = ApiError.insufficient_privileges ∧ has_creds = false then
        ApiError.authorization_required else e
      PyError.deviceApi e2
  | none => PyError.deviceUnsupported "invalid error code"

/-- utils.py api_request, lines 349-383: process a received response.
The content type is checked before the body is parsed; then the
envelope is validated and either the optional result payload is
returned or the classified error is raised. -/
def api_request_process {α : Type} (options : Py2NConnectionData)
    (resp : HttpResponse α) : Except PyError (Option α) :=
  if resp.content_type ≠ CONTENT_TYPE then
    Except.error (PyError.deviceUnsupported ("invalid content type: " ++ resp.content_type))
  else
    match resp.body.success? with
    | none => Except.error (PyError.deviceUnsupported "response malformed")
    | some success =>
      if success then
        Except.ok resp.body.result?
      else
        match resp.body.error_code with
        | none => Except.error PyError.keyError
        | some code => Except.error (classify_error code (has_credentials options))

/-- One entry of the switch-capability response
(result["switches"] of /api/switch/caps). -/
structure SwitchCap where
  switch : Nat
  enabled : Bool
  mode : String
deriving DecidableEq

/-- One entry of the switch-status response
(result["switches"] of /api/switch/status). -/
structure SwitchStatus where
  switch : Nat
  active : Bool
  locked : Bool
deriving DecidableEq

/-- One entry of the port-capability response
(result["ports"] of the IO capability endpoint). -/
structure PortCap where
  port : String
  type : String
deriving DecidableEq

/-- One entry of the port-status response
(result["ports"] of the IO status endpoint). -/
structure PortStatus where
  port : String
  state : Bool
deriving DecidableEq

/-- The payload of /api/system/info used by Py2NDevice.update. -/
structure InfoPayload where
  deviceName : String
  variant : String
  serialNumber : String
  macAddr : String
  swVersion : String
  buildType : String
  hwVersion : String
deriving DecidableEq

/-- The outcomes of the REST calls a refresh can make, each the value
api_request would return for that endpoint (already unwrapped to the
payload field the utils.py getter extracts) or the error it would
raise.  Deterministic per session step: fetching the same endpoint
twice within one operation observes the same outcome. -/
structure Responses where
  info : Except PyError InfoPayload
  system_status : Except PyError Int
  log_caps : Except PyError (List String)
  switch_caps : Except PyError (List SwitchCap)
  switch_status : Except PyError (List SwitchStatus)
  port_caps : Except PyError (List PortCap)
  port_status : Except PyError (List PortStatus)
  switch_ctrl : Except PyError Unit
  port_ctrl : Except PyError Unit

/-- utils.py get_info: re-raises any DeviceApiError unchanged. -/
def get_info (r : Responses) : Except PyError InfoPayload := r.info

/-- utils.py get_status: re-raises any DeviceApiError unchanged. -/
def get_status (r : Responses) : Except PyError Int := r.system_status

/-- utils.py get_log_caps: a DeviceApiError whose kind is NOT_SUPPORTED
becomes an empty list; every other error propagates. -/
def get_log_caps (r : Responses) : Except PyError (List String) :=
  match r.log_caps with
  | Except.error (PyError.deviceApi ApiError.not_supported) => Except.ok []
  | v => v

/-- utils.py get_switch_status: NOT_SUPPORTED becomes an empty list. -/
def get_switch_status (r : Responses) : Except PyError (List SwitchStatus) :=
  match r.switch_status with
  | Except.error (PyError.deviceApi ApiError.not_supported) => Except.ok []
  | v => v

/-- utils.py get_switch_caps: NOT_SUPPORTED becomes an empty list. -/
def get_switch_caps (r : Responses) : Except PyError (List SwitchCap) :=
  match r.switch_caps with
  | Except.error (PyError.deviceApi ApiError.not_supported) => Except.ok []
  | v => v

/-- utils.py get_port_caps: no NOT_SUPPORTED handling, the except
clause re-raises every DeviceApiError unchanged. -/
def get_port_caps (r : Responses) : Except PyError (List PortCap) := r.port_caps

/-- utils.py get_port_status: no NOT_SUPPORTED handling either. -/
def get_port_status (r : Responses) : Except PyError (List PortStatus) := r.port_status

/-- utils.py get_switches, lines 203-205: the dict comprehension
building switch_status_by_id, then .get(switch_id, default).  A dict
comprehension keeps the last entry for a duplicated key. -/
def switch_status_by_id (statuses : List SwitchStatus) (switch_id : Nat) :
    Option SwitchStatus :=
  statuses.foldl (fun acc st => if st.switch = switch_id then some st else acc) none

/-- utils.py get_switches, lines 206-221: build one Py2NDeviceSwitch
per capability entry, in capability order; status.get("active", False)
and status.get("locked", False) default to false when the id is absent
from the status response; mode is the capability mode only when
enabled. -/
def get_switches_merge (switch_caps : List SwitchCap)
    (statuses : List SwitchStatus) : List Py2NDeviceSwitch :=
  switch_caps.map fun caps =>
    let mode := if caps.enabled then some caps.mode else none
    match switch_status_by_id statuses caps.switch with
    | some status =>
        { id := caps.switch, enabled := caps.enabled, active := status.active,
          locked := status.locked, mode := mode }
    | none =>
        { id := caps.switch, enabled := caps.enabled, active := false,
          locked := false, mode := mode }

/-- utils.py get_switches: fetch capabilities and statuses (each may
raise), then merge. -/
def get_switches (r : Responses) : Except PyError (List Py2NDeviceSwitch) :=
  match get_switch_caps r with
  | Except.error e => Except.error e
  | Except.ok switch_caps =>
    match get_switch_status r with
    | Except.error e => Except.error e
    | Except.ok statuses => Except.ok (get_switches_merge switch_caps statuses)

/-- utils.py get_ports, lines 266-272: the nested loop with break.  For
each capability entry take the first status entry with the same port
id; a capability with no matching status is dropped. -/
def get_ports_merge : List PortCap → List PortStatus → List Py2NDevicePort
  | [], _ => []
  | cap :: rest, statuses =>
    match statuses.find? (fun status => status.port == cap.port) with
    | some status =>
        { id := cap.port, type := cap.type, state := status.state } ::
          get_ports_merge rest statuses
    | none => get_ports_merge rest statuses

/-- utils.py get_ports: fetch capabilities and statuses (both propagate
all errors), then merge. -/
def get_ports (r : Responses) : Except PyError (List Py2NDevicePort) :=
  match get_port_caps r with
  | Except.error e => Except.error e
  | Except.ok caps =>
    match get_port_status r with
    | Except.error e => Except.error e
    | Except.ok statuses => Except.ok (get_ports_merge caps statuses)

/-- The mutable state of a Py2NDevice instance (py2n/__init__.py):
its connection options, the initialized flag, the re-entrancy guard,
the last recorded error and the stored snapshot.  _data is none until
the first successful full refresh assigns it (reading self._data
before that raises AttributeError in Python). -/
structure Py2NDeviceState where
  options : Py2NConnectionData
  initialized : Bool := false
  _initializing : Bool := false
  _last_error : Option PyError := none
  _data : Option Py2NDeviceData := none
deriving DecidableEq

/-- Python semantics: Py2NDeviceSwitch is a plain dataclass, it defines
no __getitem__, so every subscript expression obj[key] on one of its
instances raises TypeError, whatever the key.  utils.py get_switches
returns such instances, yet Py2NDevice.update and
Py2NDevice.update_switch_status subscript them as if they were the raw
status dicts.  The result type is arbitrary because the lookup never
succeeds. -/
def py2NDeviceSwitchGetItem (α : Type) (_s : Py2NDeviceSwitch) (_key : String) :
    Except PyError α :=
  Except.error PyError.typeError

/-- py2n/__init__.py Py2NDevice.update, lines 88-103: the body of the
loop over the values returned by get_switches.  Every iteration first
evaluates switch["active"], which raises TypeError (see
py2NDeviceSwitchGetItem), so everything past that first subscript is
dead code; it is still rendered: the capability lookup with break, and
append of a rebuilt Py2NDeviceSwitch.  When no capability matches, the
Python names enabled and mode are unbound (NameError) unless a
previous iteration bound them; the NameError branch renders the
first-iteration behaviour of that dead path. -/
def update_switch_entry (switch_caps : List SwitchCap)
    (pySwitches : List Py2NDeviceSwitch) (sw : Py2NDeviceSwitch) :
    Except PyError (List Py2NDeviceSwitch) := do
  let active ← py2NDeviceSwitchGetItem Bool sw "active"
  if active then do
    let sid ← py2NDeviceSwitchGetItem Nat sw "switch"
    match switch_caps.find? (fun caps => caps.switch == sid) with
    | none => Except.error PyError.nameError
    | some caps => do
      let enabled := caps.enabled
      let mode := if enabled then some caps.mode else none
      let sid2 ← py2NDeviceSwitchGetItem Nat sw "switch"
      let act ← py2NDeviceSwitchGetItem Bool sw "active"
      let lck ← py2NDeviceSwitchGetItem Bool sw "locked"
      pure (pySwitches ++
        [{ id := sid2, enabled := enabled, active := act, locked := lck, mode := mode }])
  else
    pure pySwitches

/-- py2n/__init__.py Py2NDevice.update, lines 78 and 88-103: pySwitches
starts empty and the loop runs update_switch_entry over every value
get_switches returned. -/
def update_build_switches (switch_caps : List SwitchCap)
    (switches : List Py2NDeviceSwitch) : Except PyError (List Py2NDeviceSwitch) :=
  switches.foldlM (fun acc sw => update_switch_entry switch_caps acc sw) []

/-- py2n/__init__.py Py2NDevice._get_uptime: now (truncated to whole
seconds) minus the upTime seconds reported by the status endpoint. -/
def _get_uptime (now : Int) (r : Responses) : Except PyError Int :=
  match get_status r with
  | Except.error e => Except.error e
  | Except.ok upTime => Except.ok (now - upTime)

/-- py2n/__init__.py Py2NDevice.update, lines 73-118: the computation
of the new Py2NDeviceData snapshot.  In the unprivileged branch ports,
uptime and switches are left empty/None; otherwise ports, uptime,
switch capabilities and the get_switches result are fetched in source
order and the switch loop (update_build_switches) runs. -/
def update_run (options : Py2NConnectionData) (now : Int) (r : Responses) :
    Except PyError Py2NDeviceData :=
  match get_info r with
  | Except.error e => Except.error e
  | Except.ok info =>
    match get_log_caps r with
    | Except.error e => Except.error e
    | Except.ok log_caps =>
      if options.unprivileged then
        Except.ok
          { name := info.deviceName, model := info.variant, serial := info.serialNumber,
            host := options.host, mac := info.macAddr,
            firmware := info.swVersion ++ "-" ++ info.buildType,
            hardware := info.hwVersion, uptime := none,
            switches := [], ports := [], log_caps := log_caps }
      else
        match get_ports r with
        | Except.error e => Except.error e
        | Except.ok ports =>
          match _get_uptime now r with
          | Except.error e => Except.error e
          | Except.ok uptime =>
            match get_switch_caps r with
            | Except.error e => Except.error e
            | Except.ok switch_caps =>
              match get_switches r with
              | Except.error e => Except.error e
              | Except.ok switches =>
                match update_build_switches switch_caps switches with
                | Except.error e => Except.error e
                | Except.ok pySwitches =>
                  Except.ok
                    { name := info.deviceName, model := info.variant,
                      serial := info.serialNumber,
                      host := options.host, mac := info.macAddr,
                      firmware := info.swVersion ++ "-" ++ info.buildType,
                      hardware := info.hwVersion, uptime := some uptime,
                      switches := pySwitches, ports := ports, log_caps := log_caps }

/-- Python: isinstance(err, Py2NError).  Only the library's own
exception hierarchy (exceptions.py) is caught by an except Py2NError
clause; builtin exceptions like TypeError or AttributeError are
not. -/
def PyError.isPy2NError : PyError → Bool
  | PyError.typeError => false
  | PyError.attributeError => false
  | PyError.nameError => false
  | PyError.keyError => false
  | PyError.valueError _ => false
  | PyError.runtimeError _ => false
  | _ => true

/-- Py2NDevice.update as a session operation: on success assign
self._data; on a Py2NError record self._last_error and re-raise (the
except clause catches only Py2NError, so a builtin exception
propagates without being recorded).  The second component is the
exception the call raises, none on success.  There is no initialized
check in the source. -/
def update_device (now : Int) (r : Responses) (sess : Py2NDeviceState) :
    Py2NDeviceState × Option PyError :=
  match update_run sess.options now r with
  | Except.ok d => ({ sess with _data := some d }, none)
  | Except.error e =>
    (if e.isPy2NError then { sess with _last_error := some e } else sess, some e)

/-- Py2NDevice.initialize, lines 59-71: fail fast while already
initializing, otherwise clear initialized, run update, and set
initialized only when update succeeded; the finally block always
clears _initializing. -/
def session_init (now : Int) (r : Responses) (sess : Py2NDeviceState) :
    Py2NDeviceState × Option PyError :=
  if sess._initializing then
    (sess, some (PyError.runtimeError "Already initializing"))
  else
    let sess1 := { sess with _initializing := true, initialized := false }
    match update_device now r sess1 with
    | (sess2, none) => ({ sess2 with initialized := true, _initializing := false }, none)
    | (sess2, some e) => ({ sess2 with _initializing := false }, some e)

/-- Py2NDevice.update_switch_status, lines 126-130: the inner loop over
self._data.switches with break.  The comparison evaluates
switch_status["switch"] on a Py2NDeviceSwitch, a TypeError, so the loop
raises as soon as the snapshot holds at least one switch; on a match it
would assign the subscripted active and locked fields in place. -/
def switch_status_apply (switches : List Py2NDeviceSwitch)
    (switch_status : Py2NDeviceSwitch) : Except PyError (List Py2NDeviceSwitch) :=
  match switches with
  | [] => Except.ok []
  | sw :: rest => do
    let sid ← py2NDeviceSwitchGetItem Nat switch_status "switch"
    if sw.id = sid then do
      let act ← py2NDeviceSwitchGetItem Bool switch_status "active"
      let lck ← py2NDeviceSwitchGetItem Bool switch_status "locked"
      Except.ok ({ sw with active := act, locked := lck } :: rest)
    else do
      let rest2 ← switch_status_apply rest switch_status
      Except.ok (sw :: rest2)

/-- Py2NDevice.update_switch_status, lines 125-130: the outer loop over
the fetched statuses.  self._data is only touched inside this loop, so
a missing snapshot (d0 = none) raises AttributeError only when at
least one status arrived.  In-place mutation of the snapshot becomes
state passing; switch_status_apply never gets past its first
subscript, so no partial mutation is lost by discarding the fold on
error. -/
def apply_switch_statuses (statuses : List Py2NDeviceSwitch)
    (d0 : Option Py2NDeviceData) : Except PyError (Option Py2NDeviceData) :=
  statuses.foldlM (fun d? switch_status =>
    match d? with
    | none => Except.error PyError.attributeError
    | some d =>
      match switch_status_apply d.switches switch_status with
      | Except.ok sws => Except.ok (some { d with switches := sws })
      | Except.error e => Except.error e) d0

/-- Py2NDevice.update_switch_status, lines 123-130: fetch via
get_switches (capabilities and status, not status alone), then run the
nested loops over the snapshot.  No initialized check in the
source. -/
def update_switch_status_device (r : Responses) (sess : Py2NDeviceState) :
    Py2NDeviceState × Option PyError :=
  match get_switches r with
  | Except.error e => (sess, some e)
  | Except.ok statuses =>
    match apply_switch_statuses statuses sess._data with
    | Except.ok d? => ({ sess with _data := d? }, none)
    | Except.error e => (sess, some e)

/-- Py2NDevice.update_port_status, lines 134-138: the inner loop over
self._data.ports with break; the first port with the status entry's id
gets its state replaced. -/
def port_status_apply (ports : List Py2NDevicePort) (port_status : PortStatus) :
    List Py2NDevicePort :=
  match ports with
  | [] => []
  | p :: rest =>
    if p.id = port_status.port then { p with state := port_status.state } :: rest
    else p :: port_status_apply rest port_status

/-- Py2NDevice.update_port_status, lines 134-138: the outer loop over
the fetched port statuses; self._data is read inside the loop, so a
missing snapshot raises AttributeError only when at least one status
arrived. -/
def apply_port_statuses (statuses : List PortStatus)
    (d0 : Option Py2NDeviceData) : Except PyError (Option Py2NDeviceData) :=
  statuses.foldlM (fun d? port_status =>
    match d? with
    | none => Except.error PyError.attributeError
    | some d => Except.ok (some { d with ports := port_status_apply d.ports port_status })) d0

/-- Py2NDevice.update_port_status, lines 132-138.  get_port_status
returns the raw status dicts, so no TypeError here.  No initialized
check in the source. -/
def update_port_status_device (r : Responses) (sess : Py2NDeviceState) :
    Py2NDeviceState × Option PyError :=
  match get_port_status r with
  | Except.error e => (sess, some e)
  | Except.ok statuses =>
    match apply_port_statuses statuses sess._data with
    | Except.ok d? => ({ sess with _data := d? }, none)
    | Except.error e => (sess, some e)

/-- Py2NDevice.update_system_status, lines 145-149: fetch the fresh
uptime first, then compare against self._data.uptime and replace it
only when the absolute difference exceeds 5 seconds.  A missing
snapshot raises AttributeError; a None stored uptime (unprivileged
refresh) raises TypeError from subtracting None.  No initialized check
in the source. -/
def update_system_status_device (now : Int) (r : Responses) (sess : Py2NDeviceState) :
    Py2NDeviceState × Option PyError :=
  match _get_uptime now r with
  | Except.error e => (sess, some e)
  | Except.ok new_uptime =>
    match sess._data with
    | none => (sess, some PyError.attributeError)
    | some d =>
      match d.uptime with
      | none => (sess, some PyError.typeError)
      | some u =>
        if 5 < (new_uptime - u).natAbs then
          ({ sess with _data := some { d with uptime := some new_uptime } }, none)
        else (sess, none)

/-- Py2NDevice._find_switch, lines 253-260. -/
def _find_switch (d : Py2NDeviceData) (switch_id : Nat) :
    Except PyError Py2NDeviceSwitch :=
  if d.switches.isEmpty then Except.error (PyError.py2nError "no switches configured")
  else
    match d.switches.find? (fun sw => sw.id == switch_id) with
    | some sw => Except.ok sw
    | none => Except.error (PyError.py2nError "invalid switch id")

/-- Py2NDevice.set_switch, lines 173-186: not-initialized guard first,
then the switch lookup (self._data raises AttributeError when no
snapshot exists), the disabled check, and only then the control call;
only the control call is wrapped in the try that records
_last_error. -/
def set_switch_device (r : Responses) (sess : Py2NDeviceState)
    (switch_id : Nat) (_on : Bool) : Py2NDeviceState × Option PyError :=
  if sess.initialized = false then (sess, some PyError.notInitialized)
  else
    match sess._data with
    | none => (sess, some PyError.attributeError)
    | some d =>
      match _find_switch d switch_id with
      | Except.error e => (sess, some e)
      | Except.ok sw =>
        if sw.enabled = false then (sess, some (PyError.py2nError "switch disabled"))
        else
          match r.switch_ctrl with
          | Except.ok _ => (sess, none)
          | Except.error e =>
            (if e.isPy2NError then { sess with _last_error := some e } else sess, some e)

/-- Py2NDevice.set_port, lines 193-199: the loop over self._data.ports;
a matching output port issues the control call and returns, a matching
non-output port raises, and falling off the loop raises unknown id. -/
def set_port_loop (ports : List Py2NDevicePort) (port_id : String)
    (ctrl : Except PyError Unit) : Except PyError Unit :=
  match ports with
  | [] => Except.error (PyError.py2nError "unknown port id")
  | p :: rest =>
    if p.id = port_id then
      if p.type = "output" then ctrl
      else Except.error (PyError.py2nError "invalid operation: unable to set state on input port")
    else set_port_loop rest port_id ctrl

/-- Py2NDevice.set_port, lines 188-199: not-initialized guard first,
then the port loop; no try block, nothing is recorded in
_last_error. -/
def set_port_device (r : Responses) (sess : Py2NDeviceState)
    (port_id : String) (_on : Bool) : Py2NDeviceState × Option PyError :=
  if sess.initialized = false then (sess, some PyError.notInitialized)
  else
    match sess._data with
    | none => (sess, some PyError.attributeError)
    | some d =>
      match set_port_loop d.ports port_id r.port_ctrl with
      | Except.ok _ => (sess, none)
      | Except.error e => (sess, some e)

/-- Py2NDevice.get_switch, lines 224-230: not-initialized guard, then
the cached active flag of the switch found by _find_switch; no
network call. -/
def get_switch_device (sess : Py2NDeviceState) (switch_id : Nat) :
    Except PyError Bool :=
  if sess.initialized = false then Except.error PyError.notInitialized
  else
    match sess._data with
    | none => Except.error PyError.attributeError
    | some d =>
      match _find_switch d switch_id with
      | Except.error e => Except.error e
      | Except.ok sw => Except.ok sw.active

/-! Concrete fixtures used by the theorems below. -/

/-- A default connection configuration: no credentials, privileged. -/
def optsBase : Py2NConnectionData := { host := "h" }

/-- A configuration with both username and password supplied. -/
def optsCreds : Py2NConnectionData :=
  { host := "h", username := some "u", password := some "p" }

/-- A concrete system-info payload. -/
def info1 : InfoPayload :=
  { deviceName := "n", variant := "v", serialNumber := "s", macAddr := "m",
    swVersion := "1.0", buildType := "beta", hwVersion := "hw" }

/-- A device whose every endpoint answers successfully with no
switches, no ports and no log capabilities; upTime is 50 seconds. -/
def rEmpty : Responses :=
  { info := Except.ok info1, system_status := Except.ok 50,
    log_caps := Except.ok [], switch_caps := Except.ok [],
    switch_status := Except.ok [], port_caps := Except.ok [],
    port_status := Except.ok [], switch_ctrl := Except.ok (),
    port_ctrl := Except.ok () }

/-- One switch capability: id 1, enabled, monostable. -/
def capMono : SwitchCap := { switch := 1, enabled := true, mode := "monostable" }

/-- A device reporting one switch capability and an empty switch-status
list. -/
def rOneSwitchCap : Responses := { rEmpty with switch_caps := Except.ok [capMono] }

/-- A device reporting one switch capability and a matching status. -/
def rOneSwitch : Responses :=
  { rEmpty with
    switch_caps := Except.ok [capMono],
    switch_status := Except.ok [{ switch := 1, active := true, locked := false }] }

/-- A device whose every endpoint fails with the NOT_SUPPORTED api
error. -/
def rNS : Responses :=
  { info := Except.error (PyError.deviceApi ApiError.not_supported),
    system_status := Except.error (PyError.deviceApi ApiError.not_supported),
    log_caps := Except.error (PyError.deviceApi ApiError.not_supported),
    switch_caps := Except.error (PyError.deviceApi ApiError.not_supported),
    switch_status := Except.error (PyError.deviceApi ApiError.not_supported),
    port_caps := Except.error (PyError.deviceApi ApiError.not_supported),
    port_status := Except.error (PyError.deviceApi ApiError.not_supported),
    switch_ctrl := Except.error (PyError.deviceApi ApiError.not_supported),
    port_ctrl := Except.error (PyError.deviceApi ApiError.not_supported) }

/-- A freshly constructed, never-initialized session. -/
def sessFresh : Py2NDeviceState := { options := optsBase }

/-- The stored snapshot variant of capMono produced by a merge with an
empty status list. -/
def swStored : Py2NDeviceSwitch :=
  { id := 1, enabled := true, active := false, locked := false,
    mode := some "monostable" }

/-- A snapshot holding exactly the switch swStored. -/
def dataOneSwitch : Py2NDeviceData :=
  { name := "n", model := "v", serial := "s", host := "h", mac := "m",
    firmware := "1.0-beta", hardware := "hw", uptime := some 950,
    switches := [swStored], ports := [], log_caps := [] }

/-- The snapshot a full refresh of rEmpty stores (no switches). -/
def dataNoSwitch : Py2NDeviceData := { dataOneSwitch with switches := [] }

/-- A ready session holding dataOneSwitch. -/
def sessReady : Py2NDeviceState :=
  { options := optsBase, initialized := true, _data := some dataOneSwitch }

/-- C1 (code bug): the capability/status merge of get_switches does
build exactly one Switch per capability entry with the claimed
defaults and mode rule, but Py2NDevice.update then iterates these
Py2NDeviceSwitch dataclass instances subscripting them as dicts, so a
privileged full refresh of a device with one switch capability (and an
empty status list) raises TypeError instead of storing a snapshot, and
initialize leaves the session not ready. -/
theorem c1_full_refresh_crashes_on_switch_capability :
    get_switches rOneSwitchCap = Except.ok [swStored] ∧
    update_run optsBase 1000 rOneSwitchCap = Except.error PyError.typeError ∧
    (session_init 1000 rOneSwitchCap sessFresh).2 = some PyError.typeError ∧
    (session_init 1000 rOneSwitchCap sessFresh).1.initialized = false ∧
    optsBase.unprivileged = false :=
  ⟨rfl, rfl, rfl, rfl, rfl⟩

/-- C10 (code bug): the partial switch refresh fetches the merged
Py2NDeviceSwitch list via get_switches and then subscripts its
elements as dicts, so on a session holding one switch and a device
reporting one matching status entry it raises TypeError and changes
nothing, instead of mutating active and locked in place. -/
theorem c10_partial_switch_refresh_crashes :
    update_switch_status_device rOneSwitch sessReady = (sessReady, some PyError.typeError) :=
  rfl

/-- C7 (confirmed): the port merge equals, for every capability and
status list, the filterMap that keeps exactly the capability entries
with a first matching status entry (id and type from the capability,
state from the status), dropping unmatched capabilities and preserving
capability order; and an empty status list yields zero ports. -/
theorem c7_port_merge_filterMap (caps : List PortCap) (statuses : List PortStatus) :
    get_ports_merge caps statuses =
      caps.filterMap (fun cap =>
        (statuses.find? (fun status => status.port == cap.port)).map
          (fun status => { id := cap.port, type := cap.type, state := status.state })) ∧
    get_ports_merge caps [] = [] := by
  constructor
  · induction caps with
    | nil => simp [get_ports_merge]
    | cons cap rest ih =>
        cases h : statuses.find? (fun status => status.port == cap.port) with
        | none => simp [get_ports_merge, h, ih]
        | some status => simp [get_ports_merge, h, ih]
  · induction caps with
    | nil => simp [get_ports_merge]
    | cons cap rest ih => simpa [get_ports_merge] using ih

/-- C2 (confirmed): a success=false envelope whose code classifies to
insufficient privileges raises authorization-required when the
configuration supplies no credentials, and insufficient-privileges
when both username and password are supplied. -/
theorem c2_insufficient_privileges_reclassify (α : Type)
    (optsNo optsCred : Py2NConnectionData) (resp : HttpResponse α)
    (code : Int) (u p : String)
    (hct : resp.content_type = CONTENT_TYPE)
    (hs : resp.body.success? = some false)
    (hcode : resp.body.error_code = some code)
    (hmap : apiErrorFromCode code = some ApiError.insufficient_privileges)
    (hnu : optsNo.username = none) (hnp : optsNo.password = none)
    (hcu : optsCred.username = some u) (hcp : optsCred.password = some p) :
    api_request_process optsNo resp =
      Except.error (PyError.deviceApi ApiError.authorization_required) ∧
    api_request_process optsCred resp =
      Except.error (PyError.deviceApi ApiError.insufficient_privileges) := by
  constructor
  · simp [api_request_process, hct, hs, hcode, classify_error, hmap,
      has_credentials, hnu, hnp]
  · simp [api_request_process, hct, hs, hcode, classify_error, hmap,
      has_credentials, hcu, hcp]

/-- Witness for C2 at a concrete envelope with code 10 and the two
concrete configurations. -/
theorem c2_witness :
    api_request_process optsBase
        { content_type := CONTENT_TYPE,
          body := { success? := some false, error_code := some 10, result? := (none : Option Unit) } } =
      Except.error (PyError.deviceApi ApiError.authorization_required) ∧
    api_request_process optsCreds
        { content_type := CONTENT_TYPE,
          body := { success? := some false, error_code := some 10, result? := (none : Option Unit) } } =
      Except.error (PyError.deviceApi ApiError.insufficient_privileges) :=
  c2_insufficient_privileges_reclassify Unit optsBase optsCreds
    { content_type := CONTENT_TYPE,
      body := { success? := some false, error_code := some 10, result? := none } }
    10 "u" "p" rfl rfl rfl rfl rfl rfl rfl rfl

/-- C3 (counterexample): a NOT_SUPPORTED failure on the IO capability
endpoint does not yield an empty ports list: get_port_caps and
get_ports propagate the api error. -/
theorem c3_port_not_supported_counterexample :
    get_port_caps rNS = Except.error (PyError.deviceApi ApiError.not_supported) ∧
    get_ports rNS = Except.error (PyError.deviceApi ApiError.not_supported) ∧
    get_ports rNS ≠ Except.ok [] := by
  refine ⟨rfl, rfl, ?_⟩
  intro h
  exact Except.noConfusion h

/-- C3 (amended): the switch and log families turn a NOT_SUPPORTED
failure on their capability or status endpoint into an empty list, but
the IO port endpoints have no such handling: a failure of the IO
capability endpoint propagates out of get_port_caps and get_ports, and
a failure of the IO status endpoint (the capability fetch having
succeeded) propagates out of get_port_status and get_ports. -/
theorem c3_not_supported_amended (rA rB rC rD rS : Responses) (e : PyError)
    (caps : List PortCap)
    (hA : rA.log_caps = Except.error (PyError.deviceApi ApiError.not_supported))
    (hB : rB.switch_caps = Except.error (PyError.deviceApi ApiError.not_supported))
    (hC : rC.switch_status = Except.error (PyError.deviceApi ApiError.not_supported))
    (hD : rD.port_caps = Except.error e)
    (hS1 : rS.port_caps = Except.ok caps)
    (hS2 : rS.port_status = Except.error e) :
    get_log_caps rA = Except.ok [] ∧
    get_switch_caps rB = Except.ok [] ∧
    get_switch_status rC = Except.ok [] ∧
    get_port_caps rD = Except.error e ∧
    get_ports rD = Except.error e ∧
    get_port_status rS = Except.error e ∧
    get_ports rS = Except.error e := by
  refine ⟨?_, ?_, ?_, hD, ?_, hS2, ?_⟩
  · simp [get_log_caps, hA]
  · simp [get_switch_caps, hB]
  · simp [get_switch_status, hC]
  · simp [get_ports, get_port_caps, hD]
  · simp [get_ports, get_port_caps, get_port_status, hS1, hS2]

/-- A device whose IO capability endpoint succeeds with one output
port but whose IO status endpoint fails with NOT_SUPPORTED. -/
def rPortStatusNS : Responses :=
  { rEmpty with
    port_caps := Except.ok [{ port := "A", type := "output" }],
    port_status := Except.error (PyError.deviceApi ApiError.not_supported) }

/-- Witness for C3 at the all-NOT_SUPPORTED device and at the device
whose IO status endpoint alone reports NOT_SUPPORTED. -/
theorem c3_witness :
    get_log_caps rNS = Except.ok [] ∧
    get_switch_caps rNS = Except.ok [] ∧
    get_switch_status rNS = Except.ok [] ∧
    get_port_caps rNS = Except.error (PyError.deviceApi ApiError.not_supported) ∧
    get_ports rNS = Except.error (PyError.deviceApi ApiError.not_supported) ∧
    get_port_status rPortStatusNS = Except.error (PyError.deviceApi ApiError.not_supported) ∧
    get_ports rPortStatusNS = Except.error (PyError.deviceApi ApiError.not_supported) :=
  c3_not_supported_amended rNS rNS rNS rNS rPortStatusNS
    (PyError.deviceApi ApiError.not_supported) [{ port := "A", type := "output" }]
    rfl rfl rfl rfl rfl rfl

/-- C4 (confirmed): a success=false envelope with an unrecognised code
raises DeviceUnsupportedError, never a classified api error, and an
initialize against a device whose info endpoint fails that way
surfaces the DeviceUnsupportedError and leaves the session not
ready. -/
theorem c4_unrecognized_code_unsupported (α : Type)
    (opts : Py2NConnectionData) (resp : HttpResponse α) (code : Int)
    (e : ApiError) (r : Responses) (sess : Py2NDeviceState) (now : Int)
    (hct : resp.content_type = CONTENT_TYPE)
    (hs : resp.body.success? = some false)
    (hcode : resp.body.error_code = some code)
    (hmap : apiErrorFromCode code = none)
    (hinfo : r.info = Except.error (PyError.deviceUnsupported "invalid error code"))
    (hini : sess._initializing = false) :
    api_request_process opts resp =
      Except.error (PyError.deviceUnsupported "invalid error code") ∧
    api_request_process opts resp ≠ Except.error (PyError.deviceApi e) ∧
    (session_init now r sess).2 = some (PyError.deviceUnsupported "invalid error code") ∧
    (session_init now r sess).1.initialized = false := by
  have h1 : api_request_process opts resp =
      Except.error (PyError.deviceUnsupported "invalid error code") := by
    simp [api_request_process, hct, hs, hcode, classify_error, hmap]
  refine ⟨h1, ?_, ?_, ?_⟩
  · rw [h1]
    simp
  · simp [session_init, hini, update_device, update_run, get_info, hinfo,
      PyError.isPy2NError]
  · simp [session_init, hini, update_device, update_run, get_info, hinfo,
      PyError.isPy2NError]

/-- Witness for C4 at code 99 and a fresh session. -/
theorem c4_witness :
    api_request_process optsBase
        { content_type := CONTENT_TYPE,
          body := { success? := some false, error_code := some 99, result? := (none : Option Unit) } } =
      Except.error (PyError.deviceUnsupported "invalid error code") ∧
    api_request_process optsBase
        { content_type := CONTENT_TYPE,
          body := { success? := some false, error_code := some 99, result? := (none : Option Unit) } } ≠
      Except.error (PyError.deviceApi ApiError.not_supported) ∧
    (session_init 1000
        { rEmpty with info := Except.error (PyError.deviceUnsupported "invalid error code") }
        sessFresh).2 = some (PyError.deviceUnsupported "invalid error code") ∧
    (session_init 1000
        { rEmpty with info := Except.error (PyError.deviceUnsupported "invalid error code") }
        sessFresh).1.initialized = false :=
  c4_unrecognized_code_unsupported Unit optsBase
    { content_type := CONTENT_TYPE,
      body := { success? := some false, error_code := some 99, result? := none } }
    99 ApiError.not_supported
    { rEmpty with info := Except.error (PyError.deviceUnsupported "invalid error code") }
    sessFresh 1000 rfl rfl rfl rfl rfl rfl

/-- C5 (counterexample): on a never-initialized session, the full
refresh runs to completion and stores a snapshot instead of raising
NotInitialized, and the uptime refresh raises AttributeError (the
missing snapshot), not NotInitialized. -/
theorem c5_refresh_without_init_counterexample :
    sessFresh.initialized = false ∧
    update_device 1000 rEmpty sessFresh =
      ({ sessFresh with _data := some dataNoSwitch }, none) ∧
    update_system_status_device 1000 rEmpty sessFresh =
      (sessFresh, some PyError.attributeError) :=
  ⟨rfl, rfl, rfl⟩

/-- C5 (amended): of the listed session operations only set_switch,
set_port and get_switch guard on the initialized flag; the refresh
operations (update, update_switch_status, update_port_status,
update_system_status) perform no readiness check at all — their raised
error and their effect on the snapshot are identical whether or not
the session is initialized. -/
theorem c5_not_initialized_guards (sess : Py2NDeviceState) (r : Responses)
    (now : Int) (switch_id : Nat) (onv : Bool) (port_id : String)
    (h : sess.initialized = false) :
    (set_switch_device r sess switch_id onv).2 = some PyError.notInitialized ∧
    (set_port_device r sess port_id onv).2 = some PyError.notInitialized ∧
    get_switch_device sess switch_id = Except.error PyError.notInitialized ∧
    (update_device now r sess).2 =
      (update_device now r { sess with initialized := true }).2 ∧
    (update_device now r sess).1._data =
      (update_device now r { sess with initialized := true }).1._data ∧
    (update_switch_status_device r sess).2 =
      (update_switch_status_device r { sess with initialized := true }).2 ∧
    (update_switch_status_device r sess).1._data =
      (update_switch_status_device r { sess with initialized := true }).1._data ∧
    (update_port_status_device r sess).2 =
      (update_port_status_device r { sess with initialized := true }).2 ∧
    (update_port_status_device r sess).1._data =
      (update_port_status_device r { sess with initialized := true }).1._data ∧
    (update_system_status_device now r sess).2 =
      (update_system_status_device now r { sess with initialized := true }).2 ∧
    (update_system_status_device now r sess).1._data =
      (update_system_status_device now r { sess with initialized := true }).1._data := by
  obtain ⟨opts, ini, gu, le, da⟩ := sess
  subst h
  refine ⟨rfl, rfl, rfl, ?_, ?_, ?_, ?_, ?_, ?_, ?_, ?_⟩
  · cases hr : update_run opts now r <;> simp [update_device, hr, apply_ite]
  · cases hr : update_run opts now r <;> simp [update_device, hr, apply_ite]
  · cases hr : get_switches r with
    | error e => simp [update_switch_status_device, hr]
    | ok sts =>
        cases hf : apply_switch_statuses sts da <;>
          simp [update_switch_status_device, hr, hf]
  · cases hr : get_switches r with
    | error e => simp [update_switch_status_device, hr]
    | ok sts =>
        cases hf : apply_switch_statuses sts da <;>
          simp [update_switch_status_device, hr, hf]
  · cases hr : get_port_status r with
    | error e => simp [update_port_status_device, hr]
    | ok sts =>
        cases hf : apply_port_statuses sts da <;>
          simp [update_port_status_device, hr, hf]
  · cases hr : get_port_status r with
    | error e => simp [update_port_status_device, hr]
    | ok sts =>
        cases hf : apply_port_statuses sts da <;>
          simp [update_port_status_device, hr, hf]
  · cases hr : _get_uptime now r with
    | error e => simp [update_system_status_device, hr]
    | ok nu =>
        cases da with
        | none => simp [update_system_status_device, hr]
        | some d =>
            cases hu : d.uptime with
            | none => simp [update_system_status_device, hr, hu]
            | some u =>
                by_cases hc : 5 < (nu - u).natAbs <;>
                  simp [update_system_status_device, hr, hu, hc]
  · cases hr : _get_uptime now r with
    | error e => simp [update_system_status_device, hr]
    | ok nu =>
        cases da with
        | none => simp [update_system_status_device, hr]
        | some d =>
            cases hu : d.uptime with
            | none => simp [update_system_status_device, hr, hu]
            | some u =>
                by_cases hc : 5 < (nu - u).natAbs <;>
                  simp [update_system_status_device, hr, hu, hc]

/-- Witness for C5 at a fresh session against the all-empty device. -/
theorem c5_witness :
    (set_switch_device rEmpty sessFresh 1 true).2 = some PyError.notInitialized ∧
    (set_port_device rEmpty sessFresh "A" true).2 = some PyError.notInitialized ∧
    get_switch_device sessFresh 1 = Except.error PyError.notInitialized ∧
    (update_device 1000 rEmpty sessFresh).2 =
      (update_device 1000 rEmpty { sessFresh with initialized := true }).2 ∧
    (update_device 1000 rEmpty sessFresh).1._data =
      (update_device 1000 rEmpty { sessFresh with initialized := true }).1._data ∧
    (update_switch_status_device rEmpty sessFresh).2 =
      (update_switch_status_device rEmpty { sessFresh with initialized := true }).2 ∧
    (update_switch_status_device rEmpty sessFresh).1._data =
      (update_switch_status_device rEmpty { sessFresh with initialized := true }).1._data ∧
    (update_port_status_device rEmpty sessFresh).2 =
      (update_port_status_device rEmpty { sessFresh with initialized := true }).2 ∧
    (update_port_status_device rEmpty sessFresh).1._data =
      (update_port_status_device rEmpty { sessFresh with initialized := true }).1._data ∧
    (update_system_status_device 1000 rEmpty sessFresh).2 =
      (update_system_status_device 1000 rEmpty { sessFresh with initialized := true }).2 ∧
    (update_system_status_device 1000 rEmpty sessFresh).1._data =
      (update_system_status_device 1000 rEmpty { sessFresh with initialized := true }).1._data :=
  c5_not_initialized_guards sessFresh rEmpty 1000 1 true "A" rfl

/-- A configuration with a password and no username, used to refute
C6. -/
def cfgPwOnly : Py2NConnectionData := { host := "h", password := some "secret" }

/-- C6 (counterexample): a configuration supplying only a password
passes __post_init__ unchanged; construction does not fail
validation. -/
theorem c6_password_only_accepted :
    cfgPwOnly.username = none ∧
    cfgPwOnly.password = some "secret" ∧
    post_init true cfgPwOnly = Except.ok cfgPwOnly :=
  ⟨rfl, rfl, rfl⟩

/-- C6 (amended): construction with a username and no password raises
ValueError, but a configuration without a username is accepted
whatever its password, the one-sided check of __post_init__. -/
theorem c6_validation_one_sided (flag : Bool) (c cOk : Py2NConnectionData)
    (u : String) (hu : c.username = some u) (hp : c.password = none)
    (hOk : cOk.username = none) :
    post_init flag c =
      Except.error (PyError.valueError "Supply both username and password") ∧
    post_init flag cOk = Except.ok cOk := by
  constructor
  · simp [post_init, hu, hp]
  · simp [post_init, hOk]

/-- Witness for C6: username-only fails, password-only passes. -/
theorem c6_witness :
    post_init true { host := "h", username := some "alice" } =
      Except.error (PyError.valueError "Supply both username and password") ∧
    post_init true cfgPwOnly = Except.ok cfgPwOnly :=
  c6_validation_one_sided true { host := "h", username := some "alice" }
    cfgPwOnly "alice" rfl rfl rfl

/-- C8 (confirmed): a response whose declared content type is not
application/json fails with DeviceUnsupportedError carrying the
observed content type in its message, and the outcome does not depend
on the body — the check happens before any envelope parsing. -/
theorem c8_content_type_rejected (α : Type) (opts : Py2NConnectionData)
    (resp : HttpResponse α) (body2 : Envelope α)
    (h : resp.content_type ≠ CONTENT_TYPE) :
    api_request_process opts resp =
      Except.error (PyError.deviceUnsupported
        ("invalid content type: " ++ resp.content_type)) ∧
    api_request_process opts { resp with body := body2 } =
      api_request_process opts resp := by
  constructor
  · simp [api_request_process, h]
  · simp [api_request_process, h]

/-- Witness for C8 at a text/html response. -/
theorem c8_witness :
    api_request_process optsBase
        { content_type := "text/html",
          body := { success? := some true, error_code := none, result? := (none : Option Unit) } } =
      Except.error (PyError.deviceUnsupported ("invalid content type: " ++ "text/html")) ∧
    api_request_process optsBase
        { content_type := "text/html",
          body := ({ success? := none, error_code := none, result? := none } : Envelope Unit) } =
      api_request_process optsBase
        { content_type := "text/html",
          body := { success? := some true, error_code := none, result? := (none : Option Unit) } } :=
  c8_content_type_rejected Unit optsBase
    { content_type := "text/html",
      body := { success? := some true, error_code := none, result? := none } }
    { success? := none, error_code := none, result? := none }
    (by decide)

/-- C9 (confirmed): the uptime refresh replaces the stored uptime
exactly when the absolute difference between the freshly computed
uptime (now minus reported upTime seconds) and the stored one exceeds
5 seconds, and leaves the whole state untouched otherwise. -/
theorem c9_uptime_drift_threshold (sess : Py2NDeviceState) (d : Py2NDeviceData)
    (u T now : Int) (r : Responses)
    (hd : sess._data = some d) (hu : d.uptime = some u)
    (hs : r.system_status = Except.ok T) :
    ((now - T - u).natAbs ≤ 5 →
      update_system_status_device now r sess = (sess, none)) ∧
    (5 < (now - T - u).natAbs →
      update_system_status_device now r sess =
        ({ sess with _data := some { d with uptime := some (now - T) } }, none)) := by
  have hup : _get_uptime now r = Except.ok (now - T) := by
    simp [_get_uptime, get_status, hs]
  constructor
  · intro hle
    simp [update_system_status_device, hup, hd, hu, Nat.not_lt.mpr hle]
  · intro hlt
    simp [update_system_status_device, hup, hd, hu, hlt]

/-- A snapshot whose stored uptime is second 0. -/
def dataUp0 : Py2NDeviceData := { dataNoSwitch with uptime := some 0 }

/-- A ready session whose stored uptime is second 0. -/
def sessUp0 : Py2NDeviceState :=
  { options := optsBase, initialized := true, _data := some dataUp0 }

/-- A device reporting upTime 0 seconds. -/
def rUp0 : Responses := { rEmpty with system_status := Except.ok 0 }

/-- Witness for C9: a fresh read 3 seconds away leaves the stored
uptime unchanged, one 10 seconds away replaces it. -/
theorem c9_witness :
    update_system_status_device 3 rUp0 sessUp0 = (sessUp0, none) ∧
    update_system_status_device 10 rUp0 sessUp0 =
      ({ sessUp0 with _data := some { dataUp0 with uptime := some (10 - 0) } }, none) :=
  ⟨(c9_uptime_drift_threshold sessUp0 dataUp0 0 0 3 rUp0 rfl rfl rfl).1 (by decide),
   (c9_uptime_drift_threshold sessUp0 dataUp0 0 0 10 rUp0 rfl rfl rfl).2 (by decide)⟩

end Py2N
